import Mathlib

/-!
# MedSift AI — validation-and-scoring layer, shallow embedding

The repository ships the frontend (TypeScript) together with the type
declarations and design documents of the backend; the Python bodies of
`SchemaValidator`, `GroundingScorer`, `RiskScorer` and the feedback ranker
are not part of the source tree.  Those components are therefore modelled
from the specification (each such definition says so in its doc comment),
while the analytics-page keyword normalisation is translated directly from
`frontend/app/analytics/page.tsx`.  Text is modelled at token granularity:
a quote, a claim or an utterance is a list of word tokens.
-/

namespace MedSift

/-- Categorical grounding flag, from the `GroundingItem` type declaration. -/
inductive GroundingFlag
  | grounded
  | likely_grounded
  | uncertain
  | likely_hallucinated
deriving DecidableEq, Repr

/-- One structured clinical claim produced by the generation driver:
category tag, item text (tokenised), optional evidence quote (tokenised),
optional model-reported confidence. -/
structure ExtractionRecord where
  category : String
  item : List String
  evidence : Option (List String)
  confidence : Option ℚ
deriving DecidableEq, Repr, Inhabited

/-- One speaker-tagged utterance of the transcript, with character offset. -/
structure Utterance where
  speaker : String
  offset : ℕ
  text : List String
deriving DecidableEq, Repr

/-- The transcript document: an ordered sequence of utterances. -/
abbrev TranscriptDocument : Type := List Utterance

/-- All contiguous sublists (infixes) of a list. -/
def infixes {α : Type} (l : List α) : List (List α) :=
  l.tails.flatMap List.inits

/-- Length of the longest common contiguous sublist of `q` and `u`. -/
def lcsLen {α : Type} [DecidableEq α] (q u : List α) : ℕ :=
  ((infixes q).filter fun s => decide (s <:+: u)).foldr (fun s m => max s.length m) 0

/-- Modelled from the spec: `evidence_match` of `GroundingScorer` (the Python
body `core/grounding` is not in the tree) — best-alignment ratio of the quote
against the transcript: longest common contiguous run divided by quote
length, searched across all utterances, taking the maximum. -/
def evidenceMatch (q : List String) (transcript : TranscriptDocument) : ℚ :=
  if q = [] then 0
  else (transcript.map fun u => (lcsLen q u.text : ℚ) / q.length).foldr max 0

/-- A token made of digits only (numeric tokens must match exactly). -/
def isNumericTok (t : String) : Bool :=
  t ≠ "" && t.all Char.isDigit

/-- A proper-noun-like token: starts with an upper-case letter. -/
def isProperTok (t : String) : Bool :=
  match t.data with
  | [] => false
  | c :: _ => c.isUpper

/-- Tokens that must match exactly and carry double weight. -/
def heavyTok (t : String) : Bool :=
  isNumericTok t || isProperTok t

/-- Weight of one claim token in the support computation. -/
def tokWeight (t : String) : ℚ :=
  if heavyTok t then 2 else 1

/-- Whether a claim token is supported by the evidence quote: heavy tokens
match exactly, other tokens case-insensitively. -/
def tokMatches (quote : List String) (t : String) : Bool :=
  if heavyTok t then quote.contains t
  else (quote.map String.toLower).contains t.toLower

/-- Modelled from the spec: `claim_support` of `GroundingScorer` — weighted
token overlap between the claim text and its evidence quote. -/
def claimSupport (claim quote : List String) : ℚ :=
  let total := (claim.map tokWeight).sum
  if total = 0 then 0
  else ((claim.filter (tokMatches quote)).map tokWeight).sum / total

/-- Combined item score `round (100 * (0.5*evidence_match + 0.5*claim_support))`. -/
def computeScore (em cs : ℚ) : ℤ :=
  round (100 * (em / 2 + cs / 2))

/-- Flag thresholds: ≥85 grounded, ≥70 likely_grounded, ≥50 uncertain,
below 50 likely_hallucinated; applied to per-item scores and to the
report's overall mean alike. -/
def flagOfScore (s : ℚ) : GroundingFlag :=
  if 85 ≤ s then .grounded
  else if 70 ≤ s then .likely_grounded
  else if 50 ≤ s then .uncertain
  else .likely_hallucinated

/-- Per-item grounding result, from the `GroundingItem` type declaration. -/
structure GroundingItemResult where
  category : String
  item : List String
  evidence_match : ℚ
  claim_support : ℚ
  score : ℤ
  has_evidence : Bool
  flag : GroundingFlag
deriving DecidableEq, Repr

/-- Modelled from the spec: per-record scoring of `GroundingScorer`.  A record
without an evidence quote (absent or empty) gets `has_evidence = false`,
`evidence_match = 0` and is immediately flagged `likely_hallucinated`. -/
def groundItem (r : ExtractionRecord) (transcript : TranscriptDocument) :
    GroundingItemResult :=
  match r.evidence with
  | none =>
      { category := r.category, item := r.item, evidence_match := 0,
        claim_support := 0, score := computeScore 0 0, has_evidence := false,
        flag := .likely_hallucinated }
  | some q =>
      if q = [] then
        { category := r.category, item := r.item, evidence_match := 0,
          claim_support := 0, score := computeScore 0 0, has_evidence := false,
          flag := .likely_hallucinated }
      else
        let em := evidenceMatch q transcript
        let cs := claimSupport r.item q
        let s := computeScore em cs
        { category := r.category, item := r.item, evidence_match := em,
          claim_support := cs, score := s, has_evidence := true,
          flag := flagOfScore (s : ℚ) }

/-- Per-visit grounding report, from the `GroundingReport` type declaration. -/
structure GroundingReport where
  overall_score : ℚ
  overall_flag : GroundingFlag
  total_items : ℕ
  grounded_count : ℕ
  flagged_count : ℕ
  items : List GroundingItemResult
deriving DecidableEq, Repr

/-- Modelled from the spec: the report-building part of `GroundingScorer` —
mean item score, the same flag bucketing applied to the mean, and the
grounded / flagged counts. -/
def groundingScore (records : List ExtractionRecord)
    (transcript : TranscriptDocument) : GroundingReport :=
  let items := records.map (groundItem · transcript)
  let overall : ℚ :=
    if items = [] then 0 else (items.map fun i => (i.score : ℚ)).sum / items.length
  { overall_score := overall
    overall_flag := flagOfScore overall
    total_items := items.length
    grounded_count := (items.filter fun i => decide (i.flag = .grounded)).length
    flagged_count :=
      (items.filter fun i =>
        decide (i.flag = .uncertain) || decide (i.flag = .likely_hallucinated)).length
    items := items }

/-- The one error path of `GroundingScorer`: an empty or absent transcript. -/
inductive GroundingError
  | missingTranscript
deriving DecidableEq, Repr

/-- Modelled from the spec: the public `score` contract of `GroundingScorer`.
It fails loudly on an empty transcript and never raises for missing
evidence. -/
def scoreGrounding (records : List ExtractionRecord)
    (transcript : TranscriptDocument) : Except GroundingError GroundingReport :=
  if transcript = ([] : List Utterance) then .error .missingTranscript
  else .ok (groundingScore records transcript)

/-- One matched scoring rule instance, from the `RiskFactor` type declaration. -/
structure RiskFactor where
  factor : String
  points : ℤ
  evidence : List String
deriving DecidableEq, Repr, Inhabited

/-- Red-flag severity, from the `RedFlag` type declaration. -/
inductive Severity
  | high
  | medium
  | low
deriving DecidableEq, Repr

/-- One red flag, from the `RedFlag` type declaration. -/
structure RedFlag where
  flag : String
  severity : Severity
  category : String
  evidence : List String
  recommended_action : String
deriving DecidableEq, Repr

/-- Risk bucket, from the `RiskLevel` type declaration. -/
inductive RiskLevel
  | low
  | medium
  | high
deriving DecidableEq, Repr

/-- Risk assessment artifact, from the `RiskAssessment` type declaration in
`FRONTEND_REQUIREMENTS.md` (which includes the always-displayed disclaimer). -/
structure RiskAssessment where
  risk_score : ℤ
  risk_level : RiskLevel
  risk_factors : List RiskFactor
  red_flags : List RedFlag
  total_factors_detected : ℕ
  disclaimer : String
deriving DecidableEq, Repr

/-- Modelled from the spec: the constant disclaimer attached to every risk
assessment output (`risk_scoring` never diagnoses). -/
def riskDisclaimer : String :=
  "This risk assessment is not a diagnosis. It only highlights what was explicitly mentioned in the conversation."

/-- Records of one risk-relevant category, selected by category tag. -/
def recordsOf (c : String) (rs : List ExtractionRecord) : List ExtractionRecord :=
  rs.filter fun r => r.category == c

/-- Evidence tokens of a record, empty when absent. -/
def evidenceOf (r : ExtractionRecord) : List String :=
  r.evidence.getD []

/-- Modelled from the spec: the cumulative severe-symptom contribution —
+15 per match, capped at 30 points for the whole category. -/
def severeContribution (n : ℕ) : ℤ :=
  min (15 * (n : ℤ)) 30

/-- Whether at least two distinct chronic conditions are present. -/
def multipleChronic (rs : List ExtractionRecord) : Bool :=
  2 ≤ ((recordsOf "chronic_condition" rs).map (·.item)).dedup.length

/-- Modelled from the spec: the rule points other than the capped
severe-symptom category — +10 per new medication, +8 per dose change,
+12 for ≥2 distinct chronic conditions, +10 per non-adherence cue,
+15 for urgent follow-up, +10 for abnormal vitals, +8 for mental health. -/
def basePoints (rs : List ExtractionRecord) : ℤ :=
  10 * (recordsOf "new_medication" rs).length
    + 8 * (recordsOf "dose_change" rs).length
    + (if multipleChronic rs then 12 else 0)
    + 10 * (recordsOf "non_adherence" rs).length
    + (if recordsOf "urgent_follow_up" rs ≠ [] then 15 else 0)
    + (if recordsOf "abnormal_vitals" rs ≠ [] then 10 else 0)
    + (if recordsOf "mental_health" rs ≠ [] then 8 else 0)

/-- Clamp a point total to the [0,100] score range. -/
def clampScore (s : ℤ) : ℤ :=
  max 0 (min s 100)

/-- Bucket a clamped score: low ≤ 30, medium 31–60, high ≥ 61. -/
def riskLevelOf (s : ℤ) : RiskLevel :=
  if s ≤ 30 then .low else if s ≤ 60 then .medium else .high

/-- Modelled from the spec: the severe-symptom factors — every match is
recorded as a nominal +15 entry even though the category total is capped. -/
def severeFactors (rs : List ExtractionRecord) : List RiskFactor :=
  (recordsOf "severe_symptom" rs).map fun r =>
    { factor := "Severe symptom described", points := 15, evidence := evidenceOf r }

/-- Modelled from the spec: all matched rule instances recorded as
`RiskFactor` entries, in the order the categories are scanned. -/
def riskFactorsOf (rs : List ExtractionRecord) : List RiskFactor :=
  ((recordsOf "new_medication" rs).map fun r =>
      { factor := "New medication started", points := 10, evidence := evidenceOf r })
    ++ ((recordsOf "dose_change" rs).map fun r =>
      { factor := "Medication dose changed", points := 8, evidence := evidenceOf r })
    ++ severeFactors rs
    ++ (if multipleChronic rs then
         [{ factor := "Multiple chronic conditions", points := 12, evidence := [] }] else [])
    ++ ((recordsOf "non_adherence" rs).map fun r =>
      { factor := "Non-adherence cue detected", points := 10, evidence := evidenceOf r })
    ++ (if recordsOf "urgent_follow_up" rs ≠ [] then
         [{ factor := "Urgent follow-up required", points := 15,
            evidence := evidenceOf (((recordsOf "urgent_follow_up" rs).headI)) }] else [])
    ++ (if recordsOf "abnormal_vitals" rs ≠ [] then
         [{ factor := "Abnormal vitals mentioned", points := 10,
            evidence := evidenceOf (((recordsOf "abnormal_vitals" rs).headI)) }] else [])
    ++ (if recordsOf "mental_health" rs ≠ [] then
         [{ factor := "Mental health concern", points := 8,
            evidence := evidenceOf (((recordsOf "mental_health" rs).headI)) }] else [])

/-- Modelled from the spec: the fixed red-flag lookup keyed by category —
severity and recommended action for each member of the category enum. -/
def redFlagInfo (c : String) : Option (Severity × String) :=
  if c = "emergency_symptom" then some (.high, "Seek emergency care immediately")
  else if c = "injury_trauma" then some (.high, "Evaluate injury urgently")
  else if c = "drug_interaction" then some (.high, "Review medication list with a pharmacist")
  else if c = "adherence_barrier" then some (.medium, "Discuss assistance programs or alternatives")
  else if c = "worsening_condition" then some (.medium, "Schedule prompt re-evaluation")
  else if c = "mental_health" then some (.medium, "Offer mental-health resources and follow-up")
  else none

/-- Modelled from the spec: the independent red-flag scan — every matching
evidence span produces its own `RedFlag`, never capped or deduplicated. -/
def redFlagScan (rs : List ExtractionRecord) : List RedFlag :=
  rs.filterMap fun r =>
    (redFlagInfo r.category).map fun si =>
      { flag := String.intercalate " " r.item, severity := si.1,
        category := r.category, evidence := evidenceOf r,
        recommended_action := si.2 }

/-- Modelled from the spec: total rule points — the capped severe-symptom
contribution plus every other category's points. -/
def totalPoints (rs : List ExtractionRecord) : ℤ :=
  basePoints rs + severeContribution (recordsOf "severe_symptom" rs).length

/-- Modelled from the spec: `calculate_risk_score` of `core/risk_scoring`
(the Python body is not in the tree) — clamped rule-table score, bucket,
factor list, red flags and the unconditional disclaimer. -/
def calculate_risk_score (rs : List ExtractionRecord) : RiskAssessment :=
  let s := clampScore (totalPoints rs)
  { risk_score := s
    risk_level := riskLevelOf s
    risk_factors := riskFactorsOf rs
    red_flags := redFlagScan rs
    total_factors_detected := (riskFactorsOf rs).length
    disclaimer := riskDisclaimer }

/-- A payload field value: scalar text or a list. -/
inductive FieldVal
  | scalar (s : String)
  | list (l : List String)
deriving DecidableEq, Repr

/-- One generation attempt: the raw text returned by the model together with
its parse outcome (`none` when the raw text is malformed).  Parsing itself
belongs to the JSON layer and is abstracted as this outcome. -/
structure GenerationAttempt where
  raw : String
  parsed : Option (List (String × FieldVal))
deriving DecidableEq, Repr

/-- The tagged result of `SchemaValidator.validate`: a validated record, a
retryable diagnostic, or a terminal violation carrying the last raw payload. -/
inductive ValidationOutcome
  | validated (fields : List (String × FieldVal))
  | retryable (diagnostic : String)
  | violation (lastRaw : String)
deriving DecidableEq, Repr

/-- Back-fill every absent optional field with an explicit empty value. -/
def backfill (optional : List String) (fields : List (String × FieldVal)) :
    List (String × FieldVal) :=
  fields ++ (optional.filter fun f => !(fields.any fun p => p.1 == f)).map
    fun f => (f, FieldVal.scalar "")

/-- Modelled from the spec: `SchemaValidator.validate` (the Python body is
not in the tree) — a pure check-and-classify function.  A malformed payload
or a missing required field yields `retryable` with a diagnostic until
`attempt` reaches the caller-supplied maximum number of retries, then a
terminal `violation` carrying the last raw payload; a well-formed payload is
back-filled and returned as `validated`. -/
def validate (a : GenerationAttempt) (expected optional : List String)
    (attempt maxRetries : ℕ) : ValidationOutcome :=
  match a.parsed with
  | none =>
      if attempt < maxRetries then .retryable "parse failure"
      else .violation a.raw
  | some fields =>
      match expected.find? (fun f => !(fields.any fun p => p.1 == f)) with
      | some f =>
          if attempt < maxRetries then .retryable ("missing required field: " ++ f)
          else .violation a.raw
      | none => .validated (backfill optional fields)

/-- Modelled from the spec: the caller's retry loop around `validate`,
consuming successive generation attempts with an increasing attempt counter
and stopping at the first non-retryable outcome.  Returns the number of
attempts consumed together with the final outcome. -/
def runValidation (expected optional : List String) (maxRetries : ℕ) :
    List GenerationAttempt → ℕ → ℕ × ValidationOutcome
  | [], k => (k, .retryable "no generation attempt")
  | a :: rest, k =>
      match validate a expected optional k maxRetries with
      | .retryable d =>
          match rest with
          | [] => (k + 1, .retryable d)
          | b :: more => runValidation expected optional maxRetries (b :: more) (k + 1)
      | r => (k + 1, r)

/-- Durable per-keyword feedback counter, from the `keyword_boost` table. -/
structure KeywordCounter where
  keyword : String
  positive_count : ℕ
  negative_count : ℕ
deriving DecidableEq, Repr

/-- Derived boost score `positive / (positive + negative)`, neutral 1/2 when
both counts are zero. -/
def boost_score (c : KeywordCounter) : ℚ :=
  if c.positive_count + c.negative_count = 0 then 1 / 2
  else (c.positive_count : ℚ) / ((c.positive_count : ℚ) + (c.negative_count : ℚ))

/-- The keyword-counter store, keyed by the keyword string. -/
abbrev KeywordCounterStore : Type := List KeywordCounter

/-- Find the counter of a keyword in the store. -/
def lookupCounter (store : KeywordCounterStore) (kw : String) : Option KeywordCounter :=
  store.find? fun c => c.keyword == kw

/-- Modelled from the spec: `FeedbackRanker.apply_feedback` (the Python body
is not in the tree) — create the counter on the first feedback event for a
keyword, increment `positive_count` or `negative_count` thereafter. -/
def apply_feedback (store : KeywordCounterStore) (kw : String) (positive : Bool) :
    KeywordCounterStore :=
  match lookupCounter store kw with
  | none =>
      store ++ [if positive then ⟨kw, 1, 0⟩ else ⟨kw, 0, 1⟩]
  | some _ =>
      store.map fun c =>
        if c.keyword == kw then
          if positive then { c with positive_count := c.positive_count + 1 }
          else { c with negative_count := c.negative_count + 1 }
        else c

/-- A boosted keyword as the analytics API exposes it, from the
`BoostedKeyword` type declaration. -/
structure BoostedKeyword where
  keyword : String
  positive_count : ℕ
  negative_count : ℕ
  boost_score : ℚ
deriving DecidableEq, Repr

/-- The analytics dashboard's keyword normalisation, from
`frontend/app/analytics/page.tsx`: a stored score above 1 is on the 0–100
demo scale and is divided by 100; otherwise it is kept unchanged. -/
def normalizeBoost (b : ℚ) : ℚ :=
  if 1 < b then b / 100 else b

/-- The mapped keyword list the dashboard displays, from
`frontend/app/analytics/page.tsx`. -/
def displayedKeywords (l : List BoostedKeyword) : List BoostedKeyword :=
  l.map fun kw => { kw with boost_score := normalizeBoost kw.boost_score }

/-- Ten distinct severe-symptom extraction records, used as a concrete
severe-symptom-cap scenario. -/
def tenSevereRecords : List ExtractionRecord :=
  [⟨"severe_symptom", ["s0"], some ["chest", "pain"], none⟩,
   ⟨"severe_symptom", ["s1"], some ["chest", "pain"], none⟩,
   ⟨"severe_symptom", ["s2"], some ["chest", "pain"], none⟩,
   ⟨"severe_symptom", ["s3"], some ["chest", "pain"], none⟩,
   ⟨"severe_symptom", ["s4"], some ["chest", "pain"], none⟩,
   ⟨"severe_symptom", ["s5"], some ["chest", "pain"], none⟩,
   ⟨"severe_symptom", ["s6"], some ["chest", "pain"], none⟩,
   ⟨"severe_symptom", ["s7"], some ["chest", "pain"], none⟩,
   ⟨"severe_symptom", ["s8"], some ["chest", "pain"], none⟩,
   ⟨"severe_symptom", ["s9"], some ["chest", "pain"], none⟩]

/-! ## Helper lemmas -/

theorem mem_infixes {α : Type} (s q : List α) : s ∈ infixes q ↔ s <:+: q := by
  unfold infixes
  rw [List.mem_flatMap]
  constructor
  · rintro ⟨t, ht, hs⟩
    rw [List.mem_tails] at ht
    rw [List.mem_inits] at hs
    exact List.infix_iff_prefix_suffix.mpr ⟨t, hs, ht⟩
  · intro h
    rcases List.infix_iff_prefix_suffix.mp h with ⟨t, hp, hsuf⟩
    exact ⟨t, (List.mem_tails _ _).mpr hsuf, (List.mem_inits _ _).mpr hp⟩

theorem foldr_maxlen_le {α : Type} {l : List (List α)} {n : ℕ}
    (h : ∀ s ∈ l, s.length ≤ n) : l.foldr (fun s m => max s.length m) 0 ≤ n := by
  induction l with
  | nil => exact Nat.zero_le n
  | cons a t ih =>
      exact max_le (h a (List.mem_cons_self a t))
        (ih fun s hs => h s (List.mem_cons_of_mem a hs))

theorem le_foldr_maxlen {α : Type} {l : List (List α)} {s : List α} (hs : s ∈ l) :
    s.length ≤ l.foldr (fun s m => max s.length m) 0 := by
  induction l with
  | nil => cases hs
  | cons a t ih =>
      rcases List.mem_cons.mp hs with h | h
      · subst h; exact le_max_left _ _
      · exact le_trans (ih h) (le_max_right _ _)

theorem foldr_max_le_of {α : Type} [LinearOrder α] {z b : α} {l : List α}
    (hz : z ≤ b) (h : ∀ x ∈ l, x ≤ b) : l.foldr max z ≤ b := by
  induction l with
  | nil => exact hz
  | cons a t ih =>
      exact max_le (h a (List.mem_cons_self a t))
        (ih fun x hx => h x (List.mem_cons_of_mem a hx))

theorem le_foldr_max_of {α : Type} [LinearOrder α] {z x : α} {l : List α}
    (hx : x ∈ l) : x ≤ l.foldr max z := by
  induction l with
  | nil => cases hx
  | cons a t ih =>
      rcases List.mem_cons.mp hx with h | h
      · subst h; exact le_max_left _ _
      · exact le_trans (ih h) (le_max_right _ _)

theorem lcsLen_le {α : Type} [DecidableEq α] (q u : List α) : lcsLen q u ≤ q.length := by
  apply foldr_maxlen_le
  intro s hs
  exact ((mem_infixes s q).mp (List.mem_of_mem_filter hs)).length_le

theorem lcsLen_of_contained {α : Type} [DecidableEq α] {q u : List α} (h : q <:+: u) :
    lcsLen q u = q.length := by
  refine le_antisymm (lcsLen_le q u) (le_foldr_maxlen ?_)
  exact List.mem_filter.mpr
    ⟨(mem_infixes q q).mpr (List.infix_refl q), decide_eq_true h⟩

theorem computeScore_zero : computeScore 0 0 = 0 := by
  unfold computeScore
  norm_num

theorem computeScore_one_one : computeScore 1 1 = 100 := by
  unfold computeScore
  norm_num

theorem find?_map_invariant {α : Type} {p : α → Bool} {f : α → α}
    (hf : ∀ a, p a = false → f a = a) {l : List α}
    (hl : l.find? p = none) : (l.map f).find? p = none := by
  rw [List.find?_eq_none] at hl ⊢
  intro y hy
  rcases List.mem_map.mp hy with ⟨x, hx, rfl⟩
  have hpx : p x = false := by simpa using hl x hx
  rw [hf x hpx]
  simp [hpx]

/-! ## Claim theorems -/

/-- C1: a record whose evidence quote is absent or empty always yields a
`GroundingItemResult` with `has_evidence = false`, `evidence_match = 0`,
`score = 0` and `flag = likely_hallucinated`, for every claim text and every
transcript; and the scorer raises no error for it — on any non-empty
transcript `scoreGrounding` returns `.ok`. -/
theorem grounding_empty_evidence (r : ExtractionRecord) (t : TranscriptDocument)
    (h : r.evidence = none ∨ r.evidence = some []) :
    groundItem r t =
      { category := r.category, item := r.item, evidence_match := 0,
        claim_support := 0, score := 0, has_evidence := false,
        flag := .likely_hallucinated } ∧
    (t ≠ [] → scoreGrounding [r] t = .ok (groundingScore [r] t)) := by
  constructor
  · rcases h with h | h <;> simp [groundItem, h, computeScore_zero]
  · intro ht
    unfold scoreGrounding
    rw [if_neg ht]

theorem grounding_empty_evidence_witness :
    groundItem ⟨"medication", ["Aspirin"], none, none⟩ [⟨"doctor", 0, ["hello"]⟩] =
      { category := "medication", item := ["Aspirin"], evidence_match := 0,
        claim_support := 0, score := 0, has_evidence := false,
        flag := .likely_hallucinated } ∧
    scoreGrounding [⟨"medication", ["Aspirin"], none, none⟩] [⟨"doctor", 0, ["hello"]⟩]
      = .ok (groundingScore [⟨"medication", ["Aspirin"], none, none⟩]
              [⟨"doctor", 0, ["hello"]⟩]) := by
  have h := grounding_empty_evidence ⟨"medication", ["Aspirin"], none, none⟩
    [⟨"doctor", 0, ["hello"]⟩] (Or.inl rfl)
  exact ⟨h.1, h.2 (by simp)⟩

/-- C2: the severe-symptom category contributes `min (15 * n) 30` to the
risk score — at most 30 points even though every match is recorded as a
nominal +15 factor — and with 10 matches the contribution is exactly 30. -/
theorem severe_symptom_cap (rs : List ExtractionRecord) :
    (calculate_risk_score rs).risk_score
      = clampScore (basePoints rs + severeContribution (recordsOf "severe_symptom" rs).length) ∧
    severeContribution (recordsOf "severe_symptom" rs).length ≤ 30 ∧
    (∀ f ∈ severeFactors rs, f.points = 15) ∧
    ((recordsOf "severe_symptom" rs).length = 10 →
      severeContribution (recordsOf "severe_symptom" rs).length = 30) := by
  refine ⟨rfl, min_le_right _ _, ?_, ?_⟩
  · intro f hf
    rcases List.mem_map.mp hf with ⟨r, _, rfl⟩
    rfl
  · intro h
    rw [h]
    decide

theorem severe_symptom_cap_witness :
    severeContribution (recordsOf "severe_symptom" tenSevereRecords).length = 30 ∧
    (calculate_risk_score tenSevereRecords).risk_score
      = clampScore (basePoints tenSevereRecords
          + severeContribution (recordsOf "severe_symptom" tenSevereRecords).length) ∧
    (severeFactors tenSevereRecords).headI.points = 15 := by
  have h := severe_symptom_cap tenSevereRecords
  exact ⟨h.2.2.2 (by decide), h.1,
    h.2.2.1 (severeFactors tenSevereRecords).headI (by decide)⟩

/-- C3: for every record list the risk score is an integer in [0,100], and
the bucket is low exactly when the score is at most 30, medium exactly for
31–60, and high exactly from 61 up. -/
theorem risk_score_bounds (rs : List ExtractionRecord) :
    0 ≤ (calculate_risk_score rs).risk_score ∧
    (calculate_risk_score rs).risk_score ≤ 100 ∧
    ((calculate_risk_score rs).risk_level = .low ↔
      (calculate_risk_score rs).risk_score ≤ 30) ∧
    ((calculate_risk_score rs).risk_level = .medium ↔
      31 ≤ (calculate_risk_score rs).risk_score ∧ (calculate_risk_score rs).risk_score ≤ 60) ∧
    ((calculate_risk_score rs).risk_level = .high ↔
      61 ≤ (calculate_risk_score rs).risk_score) := by
  have hscore : (calculate_risk_score rs).risk_score = clampScore (totalPoints rs) := rfl
  have hlevel : (calculate_risk_score rs).risk_level = riskLevelOf (clampScore (totalPoints rs)) := rfl
  rw [hscore, hlevel]
  unfold clampScore riskLevelOf
  refine ⟨le_max_left _ _, max_le (by norm_num) (min_le_right _ _), ?_, ?_, ?_⟩ <;>
    split_ifs with h1 h2 <;> simp <;> omega

/-- C9: the disclaimer string on every `RiskAssessment` is the one constant,
for every input record set. -/
theorem risk_disclaimer_constant (rs : List ExtractionRecord) :
    (calculate_risk_score rs).disclaimer = riskDisclaimer := rfl

/-- C7: `GroundingScorer` and `RiskScorer` are deterministic pure functions —
identical inputs give identical `GroundingReport` and `RiskAssessment`
outputs. -/
theorem scorers_deterministic (r₁ r₂ : List ExtractionRecord)
    (t₁ t₂ : TranscriptDocument) (hr : r₁ = r₂) (ht : t₁ = t₂) :
    scoreGrounding r₁ t₁ = scoreGrounding r₂ t₂ ∧
    groundingScore r₁ t₁ = groundingScore r₂ t₂ ∧
    calculate_risk_score r₁ = calculate_risk_score r₂ := by
  subst hr
  subst ht
  exact ⟨rfl, rfl, rfl⟩

theorem scorers_deterministic_witness :
    scoreGrounding [⟨"medication", ["Aspirin"], some ["Aspirin"], none⟩]
        [⟨"doctor", 0, ["Aspirin"]⟩]
      = scoreGrounding [⟨"medication", ["Aspirin"], some ["Aspirin"], none⟩]
        [⟨"doctor", 0, ["Aspirin"]⟩] ∧
    groundingScore [⟨"medication", ["Aspirin"], some ["Aspirin"], none⟩]
        [⟨"doctor", 0, ["Aspirin"]⟩]
      = groundingScore [⟨"medication", ["Aspirin"], some ["Aspirin"], none⟩]
        [⟨"doctor", 0, ["Aspirin"]⟩] ∧
    calculate_risk_score [⟨"medication", ["Aspirin"], some ["Aspirin"], none⟩]
      = calculate_risk_score [⟨"medication", ["Aspirin"], some ["Aspirin"], none⟩] :=
  scorers_deterministic _ _ _ _ rfl rfl

/-- C10: the analytics dashboard divides a stored boost score by 100 exactly
when it exceeds 1 and keeps it unchanged otherwise, which maps every score
on the 0–100 scale into [0,1]; the displayed list is the keyword list mapped
through that normalisation. -/
theorem analytics_boost_normalisation (kw : BoostedKeyword) (l : List BoostedKeyword) :
    (1 < kw.boost_score → normalizeBoost kw.boost_score = kw.boost_score / 100) ∧
    (kw.boost_score ≤ 1 → normalizeBoost kw.boost_score = kw.boost_score) ∧
    (0 ≤ kw.boost_score → kw.boost_score ≤ 100 →
      0 ≤ normalizeBoost kw.boost_score ∧ normalizeBoost kw.boost_score ≤ 1) ∧
    (kw ∈ l → { kw with boost_score := normalizeBoost kw.boost_score } ∈ displayedKeywords l) := by
  refine ⟨?_, ?_, ?_, ?_⟩
  · intro h
    unfold normalizeBoost
    rw [if_pos h]
  · intro h
    unfold normalizeBoost
    rw [if_neg (not_lt.mpr h)]
  · intro h0 h100
    unfold normalizeBoost
    split_ifs with h1
    · constructor
      · positivity
      · rw [div_le_one (by norm_num : (0:ℚ) < 100)]
        exact h100
    · exact ⟨h0, le_of_not_lt h1⟩
  · intro hm
    exact List.mem_map_of_mem _ hm

theorem analytics_boost_normalisation_witness :
    normalizeBoost (175 / 2 : ℚ) = (175 / 2 : ℚ) / 100 ∧
    normalizeBoost (1 / 2 : ℚ) = (1 / 2 : ℚ) ∧
    (0 ≤ normalizeBoost (175 / 2 : ℚ) ∧ normalizeBoost (175 / 2 : ℚ) ≤ 1) ∧
    ({ keyword := "diabetes management", positive_count := 45, negative_count := 3,
       boost_score := normalizeBoost (175 / 2 : ℚ) } : BoostedKeyword) ∈
      displayedKeywords [{ keyword := "diabetes management", positive_count := 45,
                           negative_count := 3, boost_score := (175 / 2 : ℚ) }] := by
  have h₁ := analytics_boost_normalisation
    { keyword := "diabetes management", positive_count := 45, negative_count := 3,
      boost_score := (175 / 2 : ℚ) }
    [{ keyword := "diabetes management", positive_count := 45, negative_count := 3,
       boost_score := (175 / 2 : ℚ) }]
  have h₂ := analytics_boost_normalisation
    { keyword := "neutral", positive_count := 0, negative_count := 0,
      boost_score := (1 / 2 : ℚ) } []
  exact ⟨h₁.1 (by norm_num), h₂.2.1 (by norm_num),
    h₁.2.2.1 (by norm_num) (by norm_num), h₁.2.2.2 (List.mem_singleton_self _)⟩

/-- C4: flags follow the thresholds — for an integer item score, ≥85 is
grounded, 70–84 likely_grounded, 50–69 uncertain, below 50
likely_hallucinated; every grounding item's flag is the bucketing of its own
score, and the report's overall flag is the same bucketing applied to the
overall mean. -/
theorem grounding_flag_thresholds (s : ℤ) (r : ExtractionRecord)
    (records : List ExtractionRecord) (t : TranscriptDocument) :
    (flagOfScore (s : ℚ) = .grounded ↔ 85 ≤ s) ∧
    (flagOfScore (s : ℚ) = .likely_grounded ↔ 70 ≤ s ∧ s ≤ 84) ∧
    (flagOfScore (s : ℚ) = .uncertain ↔ 50 ≤ s ∧ s ≤ 69) ∧
    (flagOfScore (s : ℚ) = .likely_hallucinated ↔ s < 50) ∧
    (groundItem r t).flag = flagOfScore ((groundItem r t).score : ℚ) ∧
    (groundingScore records t).overall_flag
      = flagOfScore (groundingScore records t).overall_score := by
  have hq85 : ((85 : ℚ) ≤ (s : ℚ)) ↔ ((85 : ℤ) ≤ s) := by exact_mod_cast Iff.rfl
  have hq70 : ((70 : ℚ) ≤ (s : ℚ)) ↔ ((70 : ℤ) ≤ s) := by exact_mod_cast Iff.rfl
  have hq50 : ((50 : ℚ) ≤ (s : ℚ)) ↔ ((50 : ℤ) ≤ s) := by exact_mod_cast Iff.rfl
  refine ⟨?_, ?_, ?_, ?_, ?_, ?_⟩
  · unfold flagOfScore
    split_ifs with h1 h2 h3 <;> simp_all
  · unfold flagOfScore
    split_ifs with h1 h2 h3 <;> simp_all <;> try omega
  · unfold flagOfScore
    split_ifs with h1 h2 h3 <;> simp_all <;> try omega
  · unfold flagOfScore
    split_ifs with h1 h2 h3 <;> simp_all <;> try omega
  · rcases hrev : r.evidence with _ | q
    · simp only [groundItem, hrev, computeScore_zero]
      norm_num [flagOfScore]
    · by_cases hq : q = []
      · simp only [groundItem, hrev, if_pos hq, computeScore_zero]
        norm_num [flagOfScore]
      · simp only [groundItem, hrev, if_neg hq]
  · rfl

/-- C5: with the default maximum of 2 retries, three consecutive malformed
payloads give `retryable` on attempts 0 and 1, a single terminal `violation`
carrying the last raw payload on attempt 2, and the retry loop consumes
exactly three attempts — never a fourth — whatever else is queued. -/
theorem schema_retry_termination (a₁ a₂ a₃ : GenerationAttempt)
    (rest : List GenerationAttempt) (expected optional : List String)
    (h₁ : a₁.parsed = none) (h₂ : a₂.parsed = none) (h₃ : a₃.parsed = none) :
    validate a₁ expected optional 0 2 = .retryable "parse failure" ∧
    validate a₂ expected optional 1 2 = .retryable "parse failure" ∧
    validate a₃ expected optional 2 2 = .violation a₃.raw ∧
    runValidation expected optional 2 (a₁ :: a₂ :: a₃ :: rest) 0
      = (3, .violation a₃.raw) := by
  have v₁ : validate a₁ expected optional 0 2 = .retryable "parse failure" := by
    simp [validate, h₁]
  have v₂ : validate a₂ expected optional 1 2 = .retryable "parse failure" := by
    simp [validate, h₂]
  have v₃ : validate a₃ expected optional 2 2 = .violation a₃.raw := by
    simp [validate, h₃]
  refine ⟨v₁, v₂, v₃, ?_⟩
  cases rest with
  | nil => simp [runValidation, v₁, v₂, v₃]
  | cons b more => simp [runValidation, v₁, v₂, v₃]

theorem schema_retry_termination_witness :
    validate ⟨"oops1", none⟩ ["patient_summary"] ["tags"] 0 2
      = .retryable "parse failure" ∧
    validate ⟨"oops2", none⟩ ["patient_summary"] ["tags"] 1 2
      = .retryable "parse failure" ∧
    validate ⟨"oops3", none⟩ ["patient_summary"] ["tags"] 2 2
      = .violation "oops3" ∧
    runValidation ["patient_summary"] ["tags"] 2
      [⟨"oops1", none⟩, ⟨"oops2", none⟩, ⟨"oops3", none⟩, ⟨"extra", none⟩] 0
      = (3, .violation "oops3") :=
  schema_retry_termination ⟨"oops1", none⟩ ⟨"oops2", none⟩ ⟨"oops3", none⟩
    [⟨"extra", none⟩] ["patient_summary"] ["tags"] rfl rfl rfl

/-- C6: a counter's boost score is `positive / (positive + negative)` and is
the neutral 1/2 when both counts are zero; after one positive and one
negative feedback event on a fresh keyword the counter holds
`positive_count = 1`, `negative_count = 1` and boost score 1/2. -/
theorem feedback_counting (c : KeywordCounter) (store : KeywordCounterStore)
    (kw : String) (hfresh : lookupCounter store kw = none) :
    (c.positive_count = 0 ∧ c.negative_count = 0 → boost_score c = 1 / 2) ∧
    (c.positive_count + c.negative_count ≠ 0 →
      boost_score c
        = (c.positive_count : ℚ) / ((c.positive_count : ℚ) + (c.negative_count : ℚ))) ∧
    lookupCounter (apply_feedback (apply_feedback store kw true) kw false) kw
      = some ⟨kw, 1, 1⟩ ∧
    boost_score ⟨kw, 1, 1⟩ = 1 / 2 := by
  refine ⟨?_, ?_, ?_, ?_⟩
  · rintro ⟨h1, h2⟩
    simp [boost_score, h1, h2]
  · intro h
    simp [boost_score, h]
  · have hfind : store.find? (fun c => c.keyword == kw) = none := hfresh
    have step1 : apply_feedback store kw true
        = store ++ [(⟨kw, 1, 0⟩ : KeywordCounter)] := by
      unfold apply_feedback
      rw [hfresh]
      rfl
    have look1 : lookupCounter (store ++ [(⟨kw, 1, 0⟩ : KeywordCounter)]) kw
        = some ⟨kw, 1, 0⟩ := by
      unfold lookupCounter
      rw [List.find?_append, hfind]
      simp
    have step2 : apply_feedback (store ++ [(⟨kw, 1, 0⟩ : KeywordCounter)]) kw false
        = (store ++ [(⟨kw, 1, 0⟩ : KeywordCounter)]).map fun c : KeywordCounter =>
            if c.keyword == kw then
              ({ keyword := c.keyword, positive_count := c.positive_count,
                 negative_count := c.negative_count + 1 } : KeywordCounter)
            else c := by
      unfold apply_feedback
      rw [look1]
      rfl
    rw [step1, step2, List.map_append]
    unfold lookupCounter
    rw [List.find?_append]
    have left :
        ((store.map fun c : KeywordCounter =>
            if c.keyword == kw then
              ({ keyword := c.keyword, positive_count := c.positive_count,
                 negative_count := c.negative_count + 1 } : KeywordCounter)
            else c).find? fun c => c.keyword == kw) = none := by
      apply find?_map_invariant
      · intro a ha
        simp [ha]
      · exact hfind
    rw [left]
    simp
  · simp [boost_score]
    norm_num

theorem feedback_counting_witness :
    boost_score ⟨"fresh", 0, 0⟩ = 1 / 2 ∧
    boost_score ⟨"metformin", 1, 1⟩
      = (((1 : ℕ) : ℚ)) / ((((1 : ℕ) : ℚ)) + (((1 : ℕ) : ℚ))) ∧
    lookupCounter (apply_feedback (apply_feedback [] "metformin" true) "metformin" false)
        "metformin" = some ⟨"metformin", 1, 1⟩ ∧
    boost_score ⟨"metformin", 1, 1⟩ = 1 / 2 := by
  have h₁ := feedback_counting ⟨"metformin", 1, 1⟩ [] "metformin" rfl
  have h₂ := feedback_counting ⟨"fresh", 0, 0⟩ [] "metformin" rfl
  exact ⟨h₂.1 ⟨rfl, rfl⟩, h₁.2.1 (by norm_num), h₁.2.2.1, h₁.2.2.2⟩

/-- C8: when the evidence quote occurs verbatim inside a transcript
utterance and every token of the (non-empty) claim text comes from the
quote, the item gets `evidence_match = 1`, `claim_support = 1`, combined
score `round (100 * (1/2 + 1/2)) = 100`, and flag `grounded`. -/
theorem exact_evidence_grounded (r : ExtractionRecord) (t : TranscriptDocument)
    (q : List String) (hq : r.evidence = some q) (hne : q ≠ [])
    (hsub : ∃ u ∈ t, q <:+: u.text)
    (hclaim : r.item ≠ []) (htok : ∀ tok ∈ r.item, tok ∈ q) :
    (groundItem r t).evidence_match = 1 ∧
    (groundItem r t).claim_support = 1 ∧
    (groundItem r t).score = 100 ∧
    (groundItem r t).flag = .grounded := by
  have hqpos : (0 : ℚ) < q.length := by
    have hlen : q.length ≠ 0 := fun h => hne (List.eq_nil_of_length_eq_zero h)
    exact_mod_cast Nat.pos_of_ne_zero hlen
  have hem : evidenceMatch q t = 1 := by
    unfold evidenceMatch
    rw [if_neg hne]
    apply le_antisymm
    · apply foldr_max_le_of (by norm_num)
      intro x hx
      rcases List.mem_map.mp hx with ⟨u, hu, rfl⟩
      rw [div_le_one hqpos]
      exact_mod_cast lcsLen_le q u.text
    · rcases hsub with ⟨u, hu, hinf⟩
      have hone : ((lcsLen q u.text : ℚ) / q.length) = 1 := by
        rw [lcsLen_of_contained hinf]
        exact div_self (ne_of_gt hqpos)
      calc (1 : ℚ) = (lcsLen q u.text : ℚ) / q.length := hone.symm
        _ ≤ _ := le_foldr_max_of
          (List.mem_map_of_mem (fun u : Utterance => (lcsLen q u.text : ℚ) / q.length) hu)
  have hcs : claimSupport r.item q = 1 := by
    unfold claimSupport
    have hfilter : r.item.filter (tokMatches q) = r.item := by
      apply List.filter_eq_self.mpr
      intro tok htokmem
      have hmem : tok ∈ q := htok tok htokmem
      unfold tokMatches
      by_cases hh : heavyTok tok
      · rw [if_pos hh]
        exact List.elem_eq_true_of_mem hmem
      · rw [if_neg hh]
        exact List.elem_eq_true_of_mem
          (List.mem_map_of_mem String.toLower hmem)
    have hWpos : 0 < (r.item.map tokWeight).sum := by
      apply List.sum_pos
      · intro x hx
        rcases List.mem_map.mp hx with ⟨tok, _, rfl⟩
        unfold tokWeight
        split_ifs <;> norm_num
      · exact fun h => hclaim (List.map_eq_nil_iff.mp h)
    simp only [hfilter]
    rw [if_neg (ne_of_gt hWpos)]
    exact div_self (ne_of_gt hWpos)
  have hgi : groundItem r t
      = { category := r.category, item := r.item,
          evidence_match := evidenceMatch q t,
          claim_support := claimSupport r.item q,
          score := computeScore (evidenceMatch q t) (claimSupport r.item q),
          has_evidence := true,
          flag := flagOfScore
            ((computeScore (evidenceMatch q t) (claimSupport r.item q) : ℤ) : ℚ) } := by
    simp only [groundItem, hq, if_neg hne]
  rw [hgi]
  refine ⟨hem, hcs, ?_, ?_⟩
  · show computeScore (evidenceMatch q t) (claimSupport r.item q) = 100
    rw [hem, hcs]
    exact computeScore_one_one
  · show flagOfScore _ = _
    rw [hem, hcs, computeScore_one_one]
    norm_num [flagOfScore]

theorem exact_evidence_grounded_witness :
    (groundItem
      ⟨"medication", ["Metformin", "500"],
        some ["started", "Metformin", "500", "mg", "today"], none⟩
      [⟨"doctor", 0, ["we", "started", "Metformin", "500", "mg", "today"]⟩]).evidence_match
      = 1 ∧
    (groundItem
      ⟨"medication", ["Metformin", "500"],
        some ["started", "Metformin", "500", "mg", "today"], none⟩
      [⟨"doctor", 0, ["we", "started", "Metformin", "500", "mg", "today"]⟩]).claim_support
      = 1 ∧
    (groundItem
      ⟨"medication", ["Metformin", "500"],
        some ["started", "Metformin", "500", "mg", "today"], none⟩
      [⟨"doctor", 0, ["we", "started", "Metformin", "500", "mg", "today"]⟩]).score
      = 100 ∧
    (groundItem
      ⟨"medication", ["Metformin", "500"],
        some ["started", "Metformin", "500", "mg", "today"], none⟩
      [⟨"doctor", 0, ["we", "started", "Metformin", "500", "mg", "today"]⟩]).flag
      = .grounded :=
  exact_evidence_grounded
    ⟨"medication", ["Metformin", "500"],
      some ["started", "Metformin", "500", "mg", "today"], none⟩
    [⟨"doctor", 0, ["we", "started", "Metformin", "500", "mg", "today"]⟩]
    ["started", "Metformin", "500", "mg", "today"]
    rfl (by decide) (by decide) (by decide) (by decide)

end MedSift
